import Mathlib

/-!
Shallow embedding of `src/diagnose_oracle_tables.py`.

The script is a straight-line Python program: it builds a static
configuration mapping `TABLES_TO_CHECK` (an insertion-ordered dict from
table name to column metadata) and a schema constant `SCHEMA`, then runs
a fixed sequence of `print` calls, some of which iterate over the mapping.
It reads no input of any kind (no argv, no environment, no files, no
database) and writes only to standard output.

Model: the ordered dict is a `List (String × TableConfig)`; each Python
`print(s)` call contributes the string `s` to the list of printed chunks
(the actual byte stream is each chunk followed by a newline, see
`scriptOutput`).  The f-string templates of the script become functions of
the interpolated values, and the whole script becomes `scriptPrints`,
parameterized by the mapping and the schema so that claims quantifying
over configurations can be stated; the real run is
`scriptPrints TABLES_TO_CHECK SCHEMA`.
-/

/-- Column metadata for one table of the configuration mapping:
`date_filter_col` (snapshot filter column), `date_columns` and
`numeric_columns` (ordered lists of columns to check). -/
structure TableConfig where
  date_filter_col : String
  date_columns : List String
  numeric_columns : List String
deriving DecidableEq, Repr

/-- The static configuration mapping of the script (`TABLES_TO_CHECK`),
in the insertion order of the Python dict literal. -/
def TABLES_TO_CHECK : List (String × TableConfig) :=
  [("WH_LOANS",
    { date_filter_col := "RUNDATE",
      date_columns := ["RUNDATE", "ORIGDATE", "DATEMAT", "PAIDOFFDATE", "DATELASTMAINT", "ADDDATE", "STOPDATE"],
      numeric_columns := ["ORIGBAL", "NOTEBAL", "BOOKBALANCE", "AVAILBALAMT", "COBAL", "PCTPARTSOLD", "LCRATE", "OLDPI", "PF"] }),
   ("WH_ACCTCOMMON",
    { date_filter_col := "EFFDATE",
      date_columns := ["EFFDATE", "CONTRACTDATE", "DATEMAT", "CLOSEDATE", "DATELASTMAINT"],
      numeric_columns := ["BOOKBALANCE", "AVAILBAL", "YTDINTPD", "YTDINTACC", "INTRATE"] }),
   ("WH_ACCT",
    { date_filter_col := "RUNDATE",
      date_columns := ["RUNDATE", "DATEMAT", "EFFDATE", "DATELASTMAINT"],
      numeric_columns := ["BOOKBALANCE", "AVAILBAL", "INTRATE"] })]

/-- The schema constant of the script (`SCHEMA = "COCCDM"`). -/
def SCHEMA : String := "COCCDM"

/-- Python's string repetition `s * n` (as in `print("=" * 70)`). -/
def strRepeat (s : String) : Nat → String
  | 0 => ""
  | n + 1 => s ++ strRepeat s n

/-- The f-string template of the invalid date check (script section 1):
one `SELECT` per `(table, date_col)` pair, counting rows and reporting
min/max where the column is out of the `.NET` date range. -/
def invalidDateQuery (schema table date_col : String) : String :=
  "\nSELECT '" ++ table ++ "' as tbl, '" ++ date_col ++ "' as col,\n" ++
  "       COUNT(*) as invalid_count,\n" ++
  "       MIN(" ++ date_col ++ ") as min_date,\n" ++
  "       MAX(" ++ date_col ++ ") as max_date\n" ++
  "FROM " ++ schema ++ "." ++ table ++ "\n" ++
  "WHERE " ++ date_col ++ " < TO_DATE('0001-01-01', 'YYYY-MM-DD')\n" ++
  "   OR " ++ date_col ++ " > TO_DATE('9999-12-31', 'YYYY-MM-DD')\n" ++
  "   OR EXTRACT(YEAR FROM " ++ date_col ++ ") < 1\n" ++
  "   OR EXTRACT(YEAR FROM " ++ date_col ++ ") > 9999;\n"

/-- The f-string template of the date distribution check (script
section 2): one printed chunk per table, holding an aggregate summary
query and a trailing-7-days grouped count query over `date_filter_col`. -/
def dateDistQuery (schema table date_col : String) : String :=
  "\n-- " ++ table ++ ": Date range and distribution\n" ++
  "SELECT\n" ++
  "    MIN(" ++ date_col ++ ") as min_date,\n" ++
  "    MAX(" ++ date_col ++ ") as max_date,\n" ++
  "    COUNT(*) as total_rows,\n" ++
  "    COUNT(" ++ date_col ++ ") as non_null_dates,\n" ++
  "    COUNT(*) - COUNT(" ++ date_col ++ ") as null_dates\n" ++
  "FROM " ++ schema ++ "." ++ table ++ ";\n" ++
  "\n" ++
  "-- Recent dates available\n" ++
  "SELECT " ++ date_col ++ ", COUNT(*) as row_count\n" ++
  "FROM " ++ schema ++ "." ++ table ++ "\n" ++
  "WHERE " ++ date_col ++ " >= TRUNC(SYSDATE) - 7\n" ++
  "GROUP BY " ++ date_col ++ "\n" ++
  "ORDER BY " ++ date_col ++ " DESC;\n"

/-- The f-string template of the numeric precision metadata check
(script section 3): one catalog query per table. -/
def numericPrecisionQuery (schema table : String) : String :=
  "\nSELECT column_name, data_type, data_precision, data_scale\n" ++
  "FROM all_tab_columns\n" ++
  "WHERE owner = '" ++ schema ++ "'\n" ++
  "  AND table_name = '" ++ table ++ "'\n" ++
  "  AND data_type = 'NUMBER'\n" ++
  "ORDER BY column_id;\n"

/-- The f-string template of the extreme numeric values check (script
section 4): one query per `(table, num_col)` pair. -/
def extremeValueQuery (schema table num_col : String) : String :=
  "\n-- " ++ table ++ "." ++ num_col ++ " range check\n" ++
  "SELECT '" ++ table ++ "' as tbl, '" ++ num_col ++ "' as col,\n" ++
  "       MIN(" ++ num_col ++ ") as min_val,\n" ++
  "       MAX(" ++ num_col ++ ") as max_val,\n" ++
  "       MAX(LENGTH(TRUNC(" ++ num_col ++ "))) as max_int_digits,\n" ++
  "       MAX(LENGTH(" ++ num_col ++ ") - LENGTH(TRUNC(" ++ num_col ++ ")) - 1) as max_dec_digits\n" ++
  "FROM " ++ schema ++ "." ++ table ++ "\n" ++
  "WHERE " ++ num_col ++ " IS NOT NULL;\n"

/-- The literal (non-parameterized) chunk of script section 5: sample
problematic rows of `COCCDM.WH_LOANS`. -/
def sampleRowsBlock : String :=
  "\n-- WH_LOANS: Find rows with suspicious dates\n" ++
  "SELECT ACCTNBR, RUNDATE, ORIGDATE, DATEMAT, PAIDOFFDATE, STATUS\n" ++
  "FROM COCCDM.WH_LOANS\n" ++
  "WHERE ORIGDATE < TO_DATE('1900-01-01', 'YYYY-MM-DD')\n" ++
  "   OR DATEMAT > TO_DATE('2100-12-31', 'YYYY-MM-DD')\n" ++
  "   OR EXTRACT(YEAR FROM ORIGDATE) < 1900\n" ++
  "   OR EXTRACT(YEAR FROM DATEMAT) > 2100\n" ++
  "FETCH FIRST 20 ROWS ONLY;\n" ++
  "\n" ++
  "-- Check for DATE columns that are actually storing weird values\n" ++
  "SELECT ACCTNBR, RUNDATE,\n" ++
  "       TO_CHAR(ORIGDATE, 'YYYY-MM-DD HH24:MI:SS') as origdate_str,\n" ++
  "       TO_CHAR(DATEMAT, 'YYYY-MM-DD HH24:MI:SS') as datemat_str\n" ++
  "FROM COCCDM.WH_LOANS\n" ++
  "WHERE ORIGDATE IS NOT NULL\n" ++
  "ORDER BY ORIGDATE ASC\n" ++
  "FETCH FIRST 10 ROWS ONLY;\n"

/-- The literal chunk of script section 6: `UNION ALL` row counts of the
three tables, hard-coded. -/
def quickCountsBlock : String :=
  "\nSELECT 'WH_LOANS' as tbl, COUNT(*) as cnt FROM COCCDM.WH_LOANS\n" ++
  "UNION ALL\n" ++
  "SELECT 'WH_ACCTCOMMON', COUNT(*) FROM COCCDM.WH_ACCTCOMMON\n" ++
  "UNION ALL\n" ++
  "SELECT 'WH_ACCT', COUNT(*) FROM COCCDM.WH_ACCT;\n"

/-- The literal chunk of the recommended CopyJob section: the "safe"
extraction query that nulls out problematic dates of `COCCDM.WH_LOANS`. -/
def copyjobBlock : String :=
  "\n-- WH_LOANS: Cast problematic dates to NULL\n" ++
  "SELECT\n" ++
  "    ACCTNBR, RUNDATE, OCC, STATUS, ORIGBAL, CURRTERM, INTC, LCRATE, OLDPI,\n" ++
  "    CASE\n" ++
  "        WHEN ORIGDATE < TO_DATE('1900-01-01', 'YYYY-MM-DD')\n" ++
  "          OR ORIGDATE > TO_DATE('2100-12-31', 'YYYY-MM-DD')\n" ++
  "        THEN NULL\n" ++
  "        ELSE ORIGDATE\n" ++
  "    END as ORIGDATE,\n" ++
  "    CASE\n" ++
  "        WHEN DATEMAT < TO_DATE('1900-01-01', 'YYYY-MM-DD')\n" ++
  "          OR DATEMAT > TO_DATE('2100-12-31', 'YYYY-MM-DD')\n" ++
  "        THEN NULL\n" ++
  "        ELSE DATEMAT\n" ++
  "    END as DATEMAT,\n" ++
  "    CASE\n" ++
  "        WHEN PAIDOFFDATE < TO_DATE('1900-01-01', 'YYYY-MM-DD')\n" ++
  "          OR PAIDOFFDATE > TO_DATE('2100-12-31', 'YYYY-MM-DD')\n" ++
  "        THEN NULL\n" ++
  "        ELSE PAIDOFFDATE\n" ++
  "    END as PAIDOFFDATE,\n" ++
  "    PF, NOTEBAL, BOOKBALANCE, AVAILBALAMT, COBAL, ACCTMISC3, PCTPARTSOLD,\n" ++
  "    DATELASTMAINT, ADDDATE, STOPDATE\n" ++
  "FROM COCCDM.WH_LOANS\n" ++
  "WHERE RUNDATE = TRUNC(SYSDATE) - 1;  -- Yesterday's snapshot\n"

/-- The whole script as the ordered list of its `print` calls, one string
per call, transcribed top to bottom from the source.  The two loop-driven
sections over `(table, column)` pairs are `List.flatMap`; the per-table
sections are `List.map`. -/
def scriptPrints (tables : List (String × TableConfig)) (schema : String) : List String :=
  [strRepeat "=" 70,
   "DIAGNOSTIC SQL QUERIES",
   "Run these in SQL Developer, TOAD, or any Oracle client",
   strRepeat "=" 70]
  ++ (["\n" ++ strRepeat "-" 70,
       "1. INVALID DATE CHECK",
       "   Dates < 0001-01-01 or > 9999-12-31 cause .NET DateTime errors",
       strRepeat "-" 70]
      ++ tables.flatMap (fun tc =>
           ("\n-- " ++ tc.1 ++ " date validation") ::
           tc.2.date_columns.map (fun date_col => invalidDateQuery schema tc.1 date_col)))
  ++ (["\n" ++ strRepeat "-" 70,
       "2. DATE DISTRIBUTION CHECK",
       "   Understand what dates are actually in the data",
       strRepeat "-" 70]
      ++ tables.map (fun tc => dateDistQuery schema tc.1 tc.2.date_filter_col))
  ++ (["\n" ++ strRepeat "-" 70,
       "3. NUMERIC PRECISION CHECK",
       "   Check for NUMBER columns that exceed DECIMAL(38,18) precision",
       strRepeat "-" 70]
      ++ tables.flatMap (fun tc =>
           [("\n-- " ++ tc.1 ++ " numeric precision"), numericPrecisionQuery schema tc.1]))
  ++ (["\n" ++ strRepeat "-" 70,
       "4. EXTREME NUMERIC VALUES",
       "   Values that might overflow Spark Decimal types",
       strRepeat "-" 70]
      ++ tables.flatMap (fun tc =>
           tc.2.numeric_columns.map (fun num_col => extremeValueQuery schema tc.1 num_col)))
  ++ ["\n" ++ strRepeat "-" 70,
      "5. SAMPLE PROBLEMATIC ROWS",
      "   Get actual examples of bad data",
      strRepeat "-" 70,
      sampleRowsBlock]
  ++ ["\n" ++ strRepeat "-" 70,
      "6. QUICK ROW COUNTS",
      strRepeat "-" 70,
      quickCountsBlock]
  ++ ["\n" ++ strRepeat "=" 70,
      "RECOMMENDED COPYJOB SAFE QUERIES",
      "Use these queries in CopyJob to handle DateTime issues",
      strRepeat "=" 70,
      copyjobBlock]
  ++ ["\n" ++ strRepeat "=" 70,
      "END OF DIAGNOSTIC SCRIPT",
      strRepeat "=" 70]

/-- The byte stream a sequence of Python `print` calls writes: every call
emits its argument followed by one newline. -/
def printStream : List String → String
  | [] => ""
  | s :: rest => s ++ "\n" ++ printStream rest

/-- The full text the script writes to standard output. -/
def scriptOutput (tables : List (String × TableConfig)) (schema : String) : String :=
  printStream (scriptPrints tables schema)

/-- Everything an invocation could in principle observe from outside:
command-line arguments, environment variables and a clock.  The script
reads none of them (the `TRUNC(SYSDATE)` mentions are text inside the
generated SQL, never evaluated), so the modelled run ignores its world. -/
structure World where
  argv : List String
  environ : List (String × String)
  clock : Nat

/-- One full invocation of the script in an arbitrary world: the script
has no input interface, so the output is that of `scriptPrints` over the
static configuration, whatever the world holds. -/
def programOutput (_w : World) : String := scriptOutput TABLES_TO_CHECK SCHEMA

/-- Script section 0: the header banner prints. -/
def headerSection : List String :=
  [strRepeat "=" 70,
   "DIAGNOSTIC SQL QUERIES",
   "Run these in SQL Developer, TOAD, or any Oracle client",
   strRepeat "=" 70]

/-- Script section 1: banner prints, then per table a comment line and
one invalid date query per entry of `date_columns`, in list order. -/
def invalidDateSection (tables : List (String × TableConfig)) (schema : String) : List String :=
  ["\n" ++ strRepeat "-" 70,
   "1. INVALID DATE CHECK",
   "   Dates < 0001-01-01 or > 9999-12-31 cause .NET DateTime errors",
   strRepeat "-" 70]
  ++ tables.flatMap (fun tc =>
       ("\n-- " ++ tc.1 ++ " date validation") ::
       tc.2.date_columns.map (fun date_col => invalidDateQuery schema tc.1 date_col))

/-- Script section 2: banner prints, then one date distribution chunk per
table over its `date_filter_col`. -/
def dateDistSection (tables : List (String × TableConfig)) (schema : String) : List String :=
  ["\n" ++ strRepeat "-" 70,
   "2. DATE DISTRIBUTION CHECK",
   "   Understand what dates are actually in the data",
   strRepeat "-" 70]
  ++ tables.map (fun tc => dateDistQuery schema tc.1 tc.2.date_filter_col)

/-- Script section 3: banner prints, then per table a comment line and
one catalog query. -/
def numericPrecisionSection (tables : List (String × TableConfig)) (schema : String) : List String :=
  ["\n" ++ strRepeat "-" 70,
   "3. NUMERIC PRECISION CHECK",
   "   Check for NUMBER columns that exceed DECIMAL(38,18) precision",
   strRepeat "-" 70]
  ++ tables.flatMap (fun tc =>
       [("\n-- " ++ tc.1 ++ " numeric precision"), numericPrecisionQuery schema tc.1])

/-- Script section 4: banner prints, then one extreme values query per
entry of `numeric_columns` of each table, in list order. -/
def extremeValuesSection (tables : List (String × TableConfig)) (schema : String) : List String :=
  ["\n" ++ strRepeat "-" 70,
   "4. EXTREME NUMERIC VALUES",
   "   Values that might overflow Spark Decimal types",
   strRepeat "-" 70]
  ++ tables.flatMap (fun tc =>
       tc.2.numeric_columns.map (fun num_col => extremeValueQuery schema tc.1 num_col))

/-- Script section 5: banner prints and the literal sample rows chunk. -/
def sampleRowsSection : List String :=
  ["\n" ++ strRepeat "-" 70,
   "5. SAMPLE PROBLEMATIC ROWS",
   "   Get actual examples of bad data",
   strRepeat "-" 70,
   sampleRowsBlock]

/-- Script section 6: banner prints and the literal row counts chunk. -/
def quickCountsSection : List String :=
  ["\n" ++ strRepeat "-" 70,
   "6. QUICK ROW COUNTS",
   strRepeat "-" 70,
   quickCountsBlock]

/-- The recommended CopyJob section: banner prints and the literal safe
query chunk. -/
def copyjobSection : List String :=
  ["\n" ++ strRepeat "=" 70,
   "RECOMMENDED COPYJOB SAFE QUERIES",
   "Use these queries in CopyJob to handle DateTime issues",
   strRepeat "=" 70,
   copyjobBlock]

/-- The closing banner prints. -/
def footerSection : List String :=
  ["\n" ++ strRepeat "=" 70,
   "END OF DIAGNOSTIC SCRIPT",
   strRepeat "=" 70]

/-- The five configuration-dependent steps of the script, in order:
header banner and sections 1 to 4. -/
def variableSections (tables : List (String × TableConfig)) (schema : String) : List String :=
  headerSection ++ invalidDateSection tables schema ++ dateDistSection tables schema
    ++ numericPrecisionSection tables schema ++ extremeValuesSection tables schema

/-- Substring test: whether `needle` occurs contiguously in `hay`. -/
def hasSub (needle : List Char) : List Char → Bool
  | [] => needle.isEmpty
  | c :: cs => needle.isPrefixOf (c :: cs) || hasSub needle cs

/-- Whether the string `needle` occurs contiguously in the string `hay`. -/
def strContains (hay needle : String) : Bool := hasSub needle.data hay.data

/-- Number of positions of `hay` at which `needle` occurs. -/
def countOccs (needle : List Char) : List Char → Nat
  | [] => if needle.isEmpty then 1 else 0
  | c :: cs => (if needle.isPrefixOf (c :: cs) then 1 else 0) + countOccs needle cs

/-- The prefix of the list strictly before the first occurrence of
`needle` (the whole list when there is none). -/
def takeBefore (needle : List Char) : List Char → List Char
  | [] => []
  | c :: cs => if needle.isPrefixOf (c :: cs) then [] else c :: takeBefore needle cs

/-- The suffix of the list from the first occurrence of `needle` on
(empty when there is none). -/
def dropBefore (needle : List Char) : List Char → List Char
  | [] => []
  | c :: cs => if needle.isPrefixOf (c :: cs) then c :: cs else dropBefore needle cs

/-- The SELECT clause of a one-statement query of the script: the text
before the `FROM` line. -/
def selectClause (q : String) : String := String.mk (takeBefore "\nFROM ".data q.data)

/-- The WHERE clause of a one-statement query of the script: the text
from the `WHERE` line on. -/
def whereClause (q : String) : String := String.mk (dropBefore "\nWHERE ".data q.data)

/-- Split a character list at newline characters. -/
def splitNl : List Char → List (List Char)
  | [] => [[]]
  | c :: cs =>
    if c = '\n' then [] :: splitNl cs
    else
      match splitNl cs with
      | [] => [[c]]
      | l :: ls => (c :: l) :: ls

/-- A section banner rule: a line of 70 `=` or 70 `-` characters. -/
def ruleLine (l : List Char) : Bool :=
  l.length == 70 && (l.all (fun c => c == '=') || l.all (fun c => c == '-'))

/-- The fixed non-SQL text lines the script prints under its banners. -/
def titleLines : List String :=
  ["DIAGNOSTIC SQL QUERIES",
   "Run these in SQL Developer, TOAD, or any Oracle client",
   "1. INVALID DATE CHECK",
   "   Dates < 0001-01-01 or > 9999-12-31 cause .NET DateTime errors",
   "2. DATE DISTRIBUTION CHECK",
   "   Understand what dates are actually in the data",
   "3. NUMERIC PRECISION CHECK",
   "   Check for NUMBER columns that exceed DECIMAL(38,18) precision",
   "4. EXTREME NUMERIC VALUES",
   "   Values that might overflow Spark Decimal types",
   "5. SAMPLE PROBLEMATIC ROWS",
   "   Get actual examples of bad data",
   "6. QUICK ROW COUNTS",
   "RECOMMENDED COPYJOB SAFE QUERIES",
   "Use these queries in CopyJob to handle DateTime issues",
   "END OF DIAGNOSTIC SCRIPT"]

/-- Whether a line is one of the fixed title lines. -/
def isTitle (l : List Char) : Bool := titleLines.any (fun t => t.data == l)

/-- Whether a line is a SQL comment line. -/
def isCommentLine (l : List Char) : Bool := "--".data.isPrefixOf l

/-- Whether a line opens a SQL statement of the script. -/
def isSelectStart (l : List Char) : Bool := "SELECT".data.isPrefixOf l

/-- Whether a line holds a statement-terminating semicolon. -/
def hasSemi (l : List Char) : Bool := l.any (fun c => c == ';')

/-- Line-by-line grammar check: outside a statement only banner rules,
blank lines, title lines and SQL comment lines may appear, and a
statement must open with `SELECT`; inside a statement no banner rule and
no blank line may appear, and the statement ends exactly at a line
holding a semicolon. The scan must end outside a statement. -/
def checkLayout : Bool → List (List Char) → Bool
  | inside, [] => !inside
  | true, l :: ls => !ruleLine l && !l.isEmpty && checkLayout (!hasSemi l) ls
  | false, l :: ls =>
    if ruleLine l || l.isEmpty || isTitle l || isCommentLine l then checkLayout false ls
    else isSelectStart l && checkLayout (!hasSemi l) ls

/-- The example configuration mapping of the spec's template-correctness
property: one table `T1` with filter column `D`, date columns `[D]` and
numeric columns `[N]`. -/
def c2Tables : List (String × TableConfig) :=
  [("T1", { date_filter_col := "D", date_columns := ["D"], numeric_columns := ["N"] })]

/-- Whether a printed chunk is the invalid date query of some
`(table, date column)` pair of the given configuration. -/
def isConfInvalidDateQuery (tables : List (String × TableConfig)) (schema : String)
    (s : String) : Bool :=
  tables.any (fun tc => tc.2.date_columns.any (fun c => s == invalidDateQuery schema tc.1 c))

/-- Whether a printed chunk is the extreme values query of some
`(table, numeric column)` pair of the given configuration. -/
def isConfExtremeQuery (tables : List (String × TableConfig)) (schema : String)
    (s : String) : Bool :=
  tables.any (fun tc => tc.2.numeric_columns.any (fun c => s == extremeValueQuery schema tc.1 c))

set_option maxRecDepth 1000000

/-- The chunk list the script prints for its static configuration,
evaluated to literal strings once, so later theorems can compute on
literals instead of re-evaluating the templates. -/
theorem scriptPrints_eval : scriptPrints TABLES_TO_CHECK SCHEMA = [
strRepeat "=" 70,
"DIAGNOSTIC SQL QUERIES",
"Run these in SQL Developer, TOAD, or any Oracle client",
strRepeat "=" 70,
"\n" ++ strRepeat "-" 70,
"1. INVALID DATE CHECK",
"   Dates < 0001-01-01 or > 9999-12-31 cause .NET DateTime errors",
strRepeat "-" 70,
"\n-- WH_LOANS date validation",
"\nSELECT 'WH_LOANS' as tbl, 'RUNDATE' as col,\n       COUNT(*) as invalid_count,\n       MIN(RUNDATE) as min_date,\n       MAX(RUNDATE) as max_date\nFROM COCCDM.WH_LOANS\nWHERE RUNDATE < TO_DATE('0001-01-01', 'YYYY-MM-DD')\n   OR RUNDATE > TO_DATE('9999-12-31', 'YYYY-MM-DD')\n   OR EXTRACT(YEAR FROM RUNDATE) < 1\n   OR EXTRACT(YEAR FROM RUNDATE) > 9999;\n",
"\nSELECT 'WH_LOANS' as tbl, 'ORIGDATE' as col,\n       COUNT(*) as invalid_count,\n       MIN(ORIGDATE) as min_date,\n       MAX(ORIGDATE) as max_date\nFROM COCCDM.WH_LOANS\nWHERE ORIGDATE < TO_DATE('0001-01-01', 'YYYY-MM-DD')\n   OR ORIGDATE > TO_DATE('9999-12-31', 'YYYY-MM-DD')\n   OR EXTRACT(YEAR FROM ORIGDATE) < 1\n   OR EXTRACT(YEAR FROM ORIGDATE) > 9999;\n",
"\nSELECT 'WH_LOANS' as tbl, 'DATEMAT' as col,\n       COUNT(*) as invalid_count,\n       MIN(DATEMAT) as min_date,\n       MAX(DATEMAT) as max_date\nFROM COCCDM.WH_LOANS\nWHERE DATEMAT < TO_DATE('0001-01-01', 'YYYY-MM-DD')\n   OR DATEMAT > TO_DATE('9999-12-31', 'YYYY-MM-DD')\n   OR EXTRACT(YEAR FROM DATEMAT) < 1\n   OR EXTRACT(YEAR FROM DATEMAT) > 9999;\n",
"\nSELECT 'WH_LOANS' as tbl, 'PAIDOFFDATE' as col,\n       COUNT(*) as invalid_count,\n       MIN(PAIDOFFDATE) as min_date,\n       MAX(PAIDOFFDATE) as max_date\nFROM COCCDM.WH_LOANS\nWHERE PAIDOFFDATE < TO_DATE('0001-01-01', 'YYYY-MM-DD')\n   OR PAIDOFFDATE > TO_DATE('9999-12-31', 'YYYY-MM-DD')\n   OR EXTRACT(YEAR FROM PAIDOFFDATE) < 1\n   OR EXTRACT(YEAR FROM PAIDOFFDATE) > 9999;\n",
"\nSELECT 'WH_LOANS' as tbl, 'DATELASTMAINT' as col,\n       COUNT(*) as invalid_count,\n       MIN(DATELASTMAINT) as min_date,\n       MAX(DATELASTMAINT) as max_date\nFROM COCCDM.WH_LOANS\nWHERE DATELASTMAINT < TO_DATE('0001-01-01', 'YYYY-MM-DD')\n   OR DATELASTMAINT > TO_DATE('9999-12-31', 'YYYY-MM-DD')\n   OR EXTRACT(YEAR FROM DATELASTMAINT) < 1\n   OR EXTRACT(YEAR FROM DATELASTMAINT) > 9999;\n",
"\nSELECT 'WH_LOANS' as tbl, 'ADDDATE' as col,\n       COUNT(*) as invalid_count,\n       MIN(ADDDATE) as min_date,\n       MAX(ADDDATE) as max_date\nFROM COCCDM.WH_LOANS\nWHERE ADDDATE < TO_DATE('0001-01-01', 'YYYY-MM-DD')\n   OR ADDDATE > TO_DATE('9999-12-31', 'YYYY-MM-DD')\n   OR EXTRACT(YEAR FROM ADDDATE) < 1\n   OR EXTRACT(YEAR FROM ADDDATE) > 9999;\n",
"\nSELECT 'WH_LOANS' as tbl, 'STOPDATE' as col,\n       COUNT(*) as invalid_count,\n       MIN(STOPDATE) as min_date,\n       MAX(STOPDATE) as max_date\nFROM COCCDM.WH_LOANS\nWHERE STOPDATE < TO_DATE('0001-01-01', 'YYYY-MM-DD')\n   OR STOPDATE > TO_DATE('9999-12-31', 'YYYY-MM-DD')\n   OR EXTRACT(YEAR FROM STOPDATE) < 1\n   OR EXTRACT(YEAR FROM STOPDATE) > 9999;\n",
"\n-- WH_ACCTCOMMON date validation",
"\nSELECT 'WH_ACCTCOMMON' as tbl, 'EFFDATE' as col,\n       COUNT(*) as invalid_count,\n       MIN(EFFDATE) as min_date,\n       MAX(EFFDATE) as max_date\nFROM COCCDM.WH_ACCTCOMMON\nWHERE EFFDATE < TO_DATE('0001-01-01', 'YYYY-MM-DD')\n   OR EFFDATE > TO_DATE('9999-12-31', 'YYYY-MM-DD')\n   OR EXTRACT(YEAR FROM EFFDATE) < 1\n   OR EXTRACT(YEAR FROM EFFDATE) > 9999;\n",
"\nSELECT 'WH_ACCTCOMMON' as tbl, 'CONTRACTDATE' as col,\n       COUNT(*) as invalid_count,\n       MIN(CONTRACTDATE) as min_date,\n       MAX(CONTRACTDATE) as max_date\nFROM COCCDM.WH_ACCTCOMMON\nWHERE CONTRACTDATE < TO_DATE('0001-01-01', 'YYYY-MM-DD')\n   OR CONTRACTDATE > TO_DATE('9999-12-31', 'YYYY-MM-DD')\n   OR EXTRACT(YEAR FROM CONTRACTDATE) < 1\n   OR EXTRACT(YEAR FROM CONTRACTDATE) > 9999;\n",
"\nSELECT 'WH_ACCTCOMMON' as tbl, 'DATEMAT' as col,\n       COUNT(*) as invalid_count,\n       MIN(DATEMAT) as min_date,\n       MAX(DATEMAT) as max_date\nFROM COCCDM.WH_ACCTCOMMON\nWHERE DATEMAT < TO_DATE('0001-01-01', 'YYYY-MM-DD')\n   OR DATEMAT > TO_DATE('9999-12-31', 'YYYY-MM-DD')\n   OR EXTRACT(YEAR FROM DATEMAT) < 1\n   OR EXTRACT(YEAR FROM DATEMAT) > 9999;\n",
"\nSELECT 'WH_ACCTCOMMON' as tbl, 'CLOSEDATE' as col,\n       COUNT(*) as invalid_count,\n       MIN(CLOSEDATE) as min_date,\n       MAX(CLOSEDATE) as max_date\nFROM COCCDM.WH_ACCTCOMMON\nWHERE CLOSEDATE < TO_DATE('0001-01-01', 'YYYY-MM-DD')\n   OR CLOSEDATE > TO_DATE('9999-12-31', 'YYYY-MM-DD')\n   OR EXTRACT(YEAR FROM CLOSEDATE) < 1\n   OR EXTRACT(YEAR FROM CLOSEDATE) > 9999;\n",
"\nSELECT 'WH_ACCTCOMMON' as tbl, 'DATELASTMAINT' as col,\n       COUNT(*) as invalid_count,\n       MIN(DATELASTMAINT) as min_date,\n       MAX(DATELASTMAINT) as max_date\nFROM COCCDM.WH_ACCTCOMMON\nWHERE DATELASTMAINT < TO_DATE('0001-01-01', 'YYYY-MM-DD')\n   OR DATELASTMAINT > TO_DATE('9999-12-31', 'YYYY-MM-DD')\n   OR EXTRACT(YEAR FROM DATELASTMAINT) < 1\n   OR EXTRACT(YEAR FROM DATELASTMAINT) > 9999;\n",
"\n-- WH_ACCT date validation",
"\nSELECT 'WH_ACCT' as tbl, 'RUNDATE' as col,\n       COUNT(*) as invalid_count,\n       MIN(RUNDATE) as min_date,\n       MAX(RUNDATE) as max_date\nFROM COCCDM.WH_ACCT\nWHERE RUNDATE < TO_DATE('0001-01-01', 'YYYY-MM-DD')\n   OR RUNDATE > TO_DATE('9999-12-31', 'YYYY-MM-DD')\n   OR EXTRACT(YEAR FROM RUNDATE) < 1\n   OR EXTRACT(YEAR FROM RUNDATE) > 9999;\n",
"\nSELECT 'WH_ACCT' as tbl, 'DATEMAT' as col,\n       COUNT(*) as invalid_count,\n       MIN(DATEMAT) as min_date,\n       MAX(DATEMAT) as max_date\nFROM COCCDM.WH_ACCT\nWHERE DATEMAT < TO_DATE('0001-01-01', 'YYYY-MM-DD')\n   OR DATEMAT > TO_DATE('9999-12-31', 'YYYY-MM-DD')\n   OR EXTRACT(YEAR FROM DATEMAT) < 1\n   OR EXTRACT(YEAR FROM DATEMAT) > 9999;\n",
"\nSELECT 'WH_ACCT' as tbl, 'EFFDATE' as col,\n       COUNT(*) as invalid_count,\n       MIN(EFFDATE) as min_date,\n       MAX(EFFDATE) as max_date\nFROM COCCDM.WH_ACCT\nWHERE EFFDATE < TO_DATE('0001-01-01', 'YYYY-MM-DD')\n   OR EFFDATE > TO_DATE('9999-12-31', 'YYYY-MM-DD')\n   OR EXTRACT(YEAR FROM EFFDATE) < 1\n   OR EXTRACT(YEAR FROM EFFDATE) > 9999;\n",
"\nSELECT 'WH_ACCT' as tbl, 'DATELASTMAINT' as col,\n       COUNT(*) as invalid_count,\n       MIN(DATELASTMAINT) as min_date,\n       MAX(DATELASTMAINT) as max_date\nFROM COCCDM.WH_ACCT\nWHERE DATELASTMAINT < TO_DATE('0001-01-01', 'YYYY-MM-DD')\n   OR DATELASTMAINT > TO_DATE('9999-12-31', 'YYYY-MM-DD')\n   OR EXTRACT(YEAR FROM DATELASTMAINT) < 1\n   OR EXTRACT(YEAR FROM DATELASTMAINT) > 9999;\n",
"\n" ++ strRepeat "-" 70,
"2. DATE DISTRIBUTION CHECK",
"   Understand what dates are actually in the data",
strRepeat "-" 70,
"\n-- WH_LOANS: Date range and distribution\nSELECT\n    MIN(RUNDATE) as min_date,\n    MAX(RUNDATE) as max_date,\n    COUNT(*) as total_rows,\n    COUNT(RUNDATE) as non_null_dates,\n    COUNT(*) - COUNT(RUNDATE) as null_dates\nFROM COCCDM.WH_LOANS;\n\n-- Recent dates available\nSELECT RUNDATE, COUNT(*) as row_count\nFROM COCCDM.WH_LOANS\nWHERE RUNDATE >= TRUNC(SYSDATE) - 7\nGROUP BY RUNDATE\nORDER BY RUNDATE DESC;\n",
"\n-- WH_ACCTCOMMON: Date range and distribution\nSELECT\n    MIN(EFFDATE) as min_date,\n    MAX(EFFDATE) as max_date,\n    COUNT(*) as total_rows,\n    COUNT(EFFDATE) as non_null_dates,\n    COUNT(*) - COUNT(EFFDATE) as null_dates\nFROM COCCDM.WH_ACCTCOMMON;\n\n-- Recent dates available\nSELECT EFFDATE, COUNT(*) as row_count\nFROM COCCDM.WH_ACCTCOMMON\nWHERE EFFDATE >= TRUNC(SYSDATE) - 7\nGROUP BY EFFDATE\nORDER BY EFFDATE DESC;\n",
"\n-- WH_ACCT: Date range and distribution\nSELECT\n    MIN(RUNDATE) as min_date,\n    MAX(RUNDATE) as max_date,\n    COUNT(*) as total_rows,\n    COUNT(RUNDATE) as non_null_dates,\n    COUNT(*) - COUNT(RUNDATE) as null_dates\nFROM COCCDM.WH_ACCT;\n\n-- Recent dates available\nSELECT RUNDATE, COUNT(*) as row_count\nFROM COCCDM.WH_ACCT\nWHERE RUNDATE >= TRUNC(SYSDATE) - 7\nGROUP BY RUNDATE\nORDER BY RUNDATE DESC;\n",
"\n" ++ strRepeat "-" 70,
"3. NUMERIC PRECISION CHECK",
"   Check for NUMBER columns that exceed DECIMAL(38,18) precision",
strRepeat "-" 70,
"\n-- WH_LOANS numeric precision",
"\nSELECT column_name, data_type, data_precision, data_scale\nFROM all_tab_columns\nWHERE owner = 'COCCDM'\n  AND table_name = 'WH_LOANS'\n  AND data_type = 'NUMBER'\nORDER BY column_id;\n",
"\n-- WH_ACCTCOMMON numeric precision",
"\nSELECT column_name, data_type, data_precision, data_scale\nFROM all_tab_columns\nWHERE owner = 'COCCDM'\n  AND table_name = 'WH_ACCTCOMMON'\n  AND data_type = 'NUMBER'\nORDER BY column_id;\n",
"\n-- WH_ACCT numeric precision",
"\nSELECT column_name, data_type, data_precision, data_scale\nFROM all_tab_columns\nWHERE owner = 'COCCDM'\n  AND table_name = 'WH_ACCT'\n  AND data_type = 'NUMBER'\nORDER BY column_id;\n",
"\n" ++ strRepeat "-" 70,
"4. EXTREME NUMERIC VALUES",
"   Values that might overflow Spark Decimal types",
strRepeat "-" 70,
"\n-- WH_LOANS.ORIGBAL range check\nSELECT 'WH_LOANS' as tbl, 'ORIGBAL' as col,\n       MIN(ORIGBAL) as min_val,\n       MAX(ORIGBAL) as max_val,\n       MAX(LENGTH(TRUNC(ORIGBAL))) as max_int_digits,\n       MAX(LENGTH(ORIGBAL) - LENGTH(TRUNC(ORIGBAL)) - 1) as max_dec_digits\nFROM COCCDM.WH_LOANS\nWHERE ORIGBAL IS NOT NULL;\n",
"\n-- WH_LOANS.NOTEBAL range check\nSELECT 'WH_LOANS' as tbl, 'NOTEBAL' as col,\n       MIN(NOTEBAL) as min_val,\n       MAX(NOTEBAL) as max_val,\n       MAX(LENGTH(TRUNC(NOTEBAL))) as max_int_digits,\n       MAX(LENGTH(NOTEBAL) - LENGTH(TRUNC(NOTEBAL)) - 1) as max_dec_digits\nFROM COCCDM.WH_LOANS\nWHERE NOTEBAL IS NOT NULL;\n",
"\n-- WH_LOANS.BOOKBALANCE range check\nSELECT 'WH_LOANS' as tbl, 'BOOKBALANCE' as col,\n       MIN(BOOKBALANCE) as min_val,\n       MAX(BOOKBALANCE) as max_val,\n       MAX(LENGTH(TRUNC(BOOKBALANCE))) as max_int_digits,\n       MAX(LENGTH(BOOKBALANCE) - LENGTH(TRUNC(BOOKBALANCE)) - 1) as max_dec_digits\nFROM COCCDM.WH_LOANS\nWHERE BOOKBALANCE IS NOT NULL;\n",
"\n-- WH_LOANS.AVAILBALAMT range check\nSELECT 'WH_LOANS' as tbl, 'AVAILBALAMT' as col,\n       MIN(AVAILBALAMT) as min_val,\n       MAX(AVAILBALAMT) as max_val,\n       MAX(LENGTH(TRUNC(AVAILBALAMT))) as max_int_digits,\n       MAX(LENGTH(AVAILBALAMT) - LENGTH(TRUNC(AVAILBALAMT)) - 1) as max_dec_digits\nFROM COCCDM.WH_LOANS\nWHERE AVAILBALAMT IS NOT NULL;\n",
"\n-- WH_LOANS.COBAL range check\nSELECT 'WH_LOANS' as tbl, 'COBAL' as col,\n       MIN(COBAL) as min_val,\n       MAX(COBAL) as max_val,\n       MAX(LENGTH(TRUNC(COBAL))) as max_int_digits,\n       MAX(LENGTH(COBAL) - LENGTH(TRUNC(COBAL)) - 1) as max_dec_digits\nFROM COCCDM.WH_LOANS\nWHERE COBAL IS NOT NULL;\n",
"\n-- WH_LOANS.PCTPARTSOLD range check\nSELECT 'WH_LOANS' as tbl, 'PCTPARTSOLD' as col,\n       MIN(PCTPARTSOLD) as min_val,\n       MAX(PCTPARTSOLD) as max_val,\n       MAX(LENGTH(TRUNC(PCTPARTSOLD))) as max_int_digits,\n       MAX(LENGTH(PCTPARTSOLD) - LENGTH(TRUNC(PCTPARTSOLD)) - 1) as max_dec_digits\nFROM COCCDM.WH_LOANS\nWHERE PCTPARTSOLD IS NOT NULL;\n",
"\n-- WH_LOANS.LCRATE range check\nSELECT 'WH_LOANS' as tbl, 'LCRATE' as col,\n       MIN(LCRATE) as min_val,\n       MAX(LCRATE) as max_val,\n       MAX(LENGTH(TRUNC(LCRATE))) as max_int_digits,\n       MAX(LENGTH(LCRATE) - LENGTH(TRUNC(LCRATE)) - 1) as max_dec_digits\nFROM COCCDM.WH_LOANS\nWHERE LCRATE IS NOT NULL;\n",
"\n-- WH_LOANS.OLDPI range check\nSELECT 'WH_LOANS' as tbl, 'OLDPI' as col,\n       MIN(OLDPI) as min_val,\n       MAX(OLDPI) as max_val,\n       MAX(LENGTH(TRUNC(OLDPI))) as max_int_digits,\n       MAX(LENGTH(OLDPI) - LENGTH(TRUNC(OLDPI)) - 1) as max_dec_digits\nFROM COCCDM.WH_LOANS\nWHERE OLDPI IS NOT NULL;\n",
"\n-- WH_LOANS.PF range check\nSELECT 'WH_LOANS' as tbl, 'PF' as col,\n       MIN(PF) as min_val,\n       MAX(PF) as max_val,\n       MAX(LENGTH(TRUNC(PF))) as max_int_digits,\n       MAX(LENGTH(PF) - LENGTH(TRUNC(PF)) - 1) as max_dec_digits\nFROM COCCDM.WH_LOANS\nWHERE PF IS NOT NULL;\n",
"\n-- WH_ACCTCOMMON.BOOKBALANCE range check\nSELECT 'WH_ACCTCOMMON' as tbl, 'BOOKBALANCE' as col,\n       MIN(BOOKBALANCE) as min_val,\n       MAX(BOOKBALANCE) as max_val,\n       MAX(LENGTH(TRUNC(BOOKBALANCE))) as max_int_digits,\n       MAX(LENGTH(BOOKBALANCE) - LENGTH(TRUNC(BOOKBALANCE)) - 1) as max_dec_digits\nFROM COCCDM.WH_ACCTCOMMON\nWHERE BOOKBALANCE IS NOT NULL;\n",
"\n-- WH_ACCTCOMMON.AVAILBAL range check\nSELECT 'WH_ACCTCOMMON' as tbl, 'AVAILBAL' as col,\n       MIN(AVAILBAL) as min_val,\n       MAX(AVAILBAL) as max_val,\n       MAX(LENGTH(TRUNC(AVAILBAL))) as max_int_digits,\n       MAX(LENGTH(AVAILBAL) - LENGTH(TRUNC(AVAILBAL)) - 1) as max_dec_digits\nFROM COCCDM.WH_ACCTCOMMON\nWHERE AVAILBAL IS NOT NULL;\n",
"\n-- WH_ACCTCOMMON.YTDINTPD range check\nSELECT 'WH_ACCTCOMMON' as tbl, 'YTDINTPD' as col,\n       MIN(YTDINTPD) as min_val,\n       MAX(YTDINTPD) as max_val,\n       MAX(LENGTH(TRUNC(YTDINTPD))) as max_int_digits,\n       MAX(LENGTH(YTDINTPD) - LENGTH(TRUNC(YTDINTPD)) - 1) as max_dec_digits\nFROM COCCDM.WH_ACCTCOMMON\nWHERE YTDINTPD IS NOT NULL;\n",
"\n-- WH_ACCTCOMMON.YTDINTACC range check\nSELECT 'WH_ACCTCOMMON' as tbl, 'YTDINTACC' as col,\n       MIN(YTDINTACC) as min_val,\n       MAX(YTDINTACC) as max_val,\n       MAX(LENGTH(TRUNC(YTDINTACC))) as max_int_digits,\n       MAX(LENGTH(YTDINTACC) - LENGTH(TRUNC(YTDINTACC)) - 1) as max_dec_digits\nFROM COCCDM.WH_ACCTCOMMON\nWHERE YTDINTACC IS NOT NULL;\n",
"\n-- WH_ACCTCOMMON.INTRATE range check\nSELECT 'WH_ACCTCOMMON' as tbl, 'INTRATE' as col,\n       MIN(INTRATE) as min_val,\n       MAX(INTRATE) as max_val,\n       MAX(LENGTH(TRUNC(INTRATE))) as max_int_digits,\n       MAX(LENGTH(INTRATE) - LENGTH(TRUNC(INTRATE)) - 1) as max_dec_digits\nFROM COCCDM.WH_ACCTCOMMON\nWHERE INTRATE IS NOT NULL;\n",
"\n-- WH_ACCT.BOOKBALANCE range check\nSELECT 'WH_ACCT' as tbl, 'BOOKBALANCE' as col,\n       MIN(BOOKBALANCE) as min_val,\n       MAX(BOOKBALANCE) as max_val,\n       MAX(LENGTH(TRUNC(BOOKBALANCE))) as max_int_digits,\n       MAX(LENGTH(BOOKBALANCE) - LENGTH(TRUNC(BOOKBALANCE)) - 1) as max_dec_digits\nFROM COCCDM.WH_ACCT\nWHERE BOOKBALANCE IS NOT NULL;\n",
"\n-- WH_ACCT.AVAILBAL range check\nSELECT 'WH_ACCT' as tbl, 'AVAILBAL' as col,\n       MIN(AVAILBAL) as min_val,\n       MAX(AVAILBAL) as max_val,\n       MAX(LENGTH(TRUNC(AVAILBAL))) as max_int_digits,\n       MAX(LENGTH(AVAILBAL) - LENGTH(TRUNC(AVAILBAL)) - 1) as max_dec_digits\nFROM COCCDM.WH_ACCT\nWHERE AVAILBAL IS NOT NULL;\n",
"\n-- WH_ACCT.INTRATE range check\nSELECT 'WH_ACCT' as tbl, 'INTRATE' as col,\n       MIN(INTRATE) as min_val,\n       MAX(INTRATE) as max_val,\n       MAX(LENGTH(TRUNC(INTRATE))) as max_int_digits,\n       MAX(LENGTH(INTRATE) - LENGTH(TRUNC(INTRATE)) - 1) as max_dec_digits\nFROM COCCDM.WH_ACCT\nWHERE INTRATE IS NOT NULL;\n",
"\n" ++ strRepeat "-" 70,
"5. SAMPLE PROBLEMATIC ROWS",
"   Get actual examples of bad data",
strRepeat "-" 70,
"\n-- WH_LOANS: Find rows with suspicious dates\nSELECT ACCTNBR, RUNDATE, ORIGDATE, DATEMAT, PAIDOFFDATE, STATUS\nFROM COCCDM.WH_LOANS\nWHERE ORIGDATE < TO_DATE('1900-01-01', 'YYYY-MM-DD')\n   OR DATEMAT > TO_DATE('2100-12-31', 'YYYY-MM-DD')\n   OR EXTRACT(YEAR FROM ORIGDATE) < 1900\n   OR EXTRACT(YEAR FROM DATEMAT) > 2100\nFETCH FIRST 20 ROWS ONLY;\n\n-- Check for DATE columns that are actually storing weird values\nSELECT ACCTNBR, RUNDATE,\n       TO_CHAR(ORIGDATE, 'YYYY-MM-DD HH24:MI:SS') as origdate_str,\n       TO_CHAR(DATEMAT, 'YYYY-MM-DD HH24:MI:SS') as datemat_str\nFROM COCCDM.WH_LOANS\nWHERE ORIGDATE IS NOT NULL\nORDER BY ORIGDATE ASC\nFETCH FIRST 10 ROWS ONLY;\n",
"\n" ++ strRepeat "-" 70,
"6. QUICK ROW COUNTS",
strRepeat "-" 70,
"\nSELECT 'WH_LOANS' as tbl, COUNT(*) as cnt FROM COCCDM.WH_LOANS\nUNION ALL\nSELECT 'WH_ACCTCOMMON', COUNT(*) FROM COCCDM.WH_ACCTCOMMON\nUNION ALL\nSELECT 'WH_ACCT', COUNT(*) FROM COCCDM.WH_ACCT;\n",
"\n" ++ strRepeat "=" 70,
"RECOMMENDED COPYJOB SAFE QUERIES",
"Use these queries in CopyJob to handle DateTime issues",
strRepeat "=" 70,
"\n-- WH_LOANS: Cast problematic dates to NULL\nSELECT\n    ACCTNBR, RUNDATE, OCC, STATUS, ORIGBAL, CURRTERM, INTC, LCRATE, OLDPI,\n    CASE\n        WHEN ORIGDATE < TO_DATE('1900-01-01', 'YYYY-MM-DD')\n          OR ORIGDATE > TO_DATE('2100-12-31', 'YYYY-MM-DD')\n        THEN NULL\n        ELSE ORIGDATE\n    END as ORIGDATE,\n    CASE\n        WHEN DATEMAT < TO_DATE('1900-01-01', 'YYYY-MM-DD')\n          OR DATEMAT > TO_DATE('2100-12-31', 'YYYY-MM-DD')\n        THEN NULL\n        ELSE DATEMAT\n    END as DATEMAT,\n    CASE\n        WHEN PAIDOFFDATE < TO_DATE('1900-01-01', 'YYYY-MM-DD')\n          OR PAIDOFFDATE > TO_DATE('2100-12-31', 'YYYY-MM-DD')\n        THEN NULL\n        ELSE PAIDOFFDATE\n    END as PAIDOFFDATE,\n    PF, NOTEBAL, BOOKBALANCE, AVAILBALAMT, COBAL, ACCTMISC3, PCTPARTSOLD,\n    DATELASTMAINT, ADDDATE, STOPDATE\nFROM COCCDM.WH_LOANS\nWHERE RUNDATE = TRUNC(SYSDATE) - 1;  -- Yesterday's snapshot\n",
"\n" ++ strRepeat "=" 70,
"END OF DIAGNOSTIC SCRIPT",
strRepeat "=" 70
] := by
  simp [scriptPrints, TABLES_TO_CHECK, SCHEMA, invalidDateQuery, dateDistQuery,
        numericPrecisionQuery, extremeValueQuery, sampleRowsBlock, quickCountsBlock,
        copyjobBlock, strRepeat]

/-- Decomposition of the print sequence into the eight emission steps of
the spec and the closing banner, for every configuration and schema. -/
theorem scriptPrints_decomp (tables : List (String × TableConfig)) (schema : String) :
    scriptPrints tables schema =
      headerSection ++ invalidDateSection tables schema ++ dateDistSection tables schema
        ++ numericPrecisionSection tables schema ++ extremeValuesSection tables schema
        ++ sampleRowsSection ++ quickCountsSection ++ copyjobSection ++ footerSection := by
  simp [scriptPrints, headerSection, invalidDateSection, dateDistSection,
        numericPrecisionSection, extremeValuesSection, sampleRowsSection,
        quickCountsSection, copyjobSection, footerSection]

theorem data_empty_str : ("" : String).data = [] := rfl

theorem data_newline_str : ("\n" : String).data = ['\n'] := rfl

theorem splitNl_ne_nil (l : List Char) : splitNl l ≠ [] := by
  cases l with
  | nil => simp [splitNl]
  | cons c cs =>
    simp only [splitNl]
    split
    · simp
    · split <;> simp

theorem splitNl_cons_newline (z : List Char) : splitNl ('\n' :: z) = [] :: splitNl z := rfl

theorem splitNl_cons_ne (c : Char) (z : List Char) (hc : ¬ c = '\n') :
    splitNl (c :: z) =
      match splitNl z with
      | [] => [[c]]
      | l :: ls => (c :: l) :: ls := by
  simp only [splitNl, if_neg hc]

theorem splitNl_append_newline (x y : List Char) :
    splitNl (x ++ '\n' :: y) = splitNl x ++ splitNl y := by
  induction x with
  | nil => simp [splitNl]
  | cons c cs ih =>
    rw [List.cons_append]
    by_cases hc : c = '\n'
    · subst hc
      rw [splitNl_cons_newline, splitNl_cons_newline, ih, List.cons_append]
    · rw [splitNl_cons_ne c _ hc, splitNl_cons_ne c cs hc, ih]
      cases h : splitNl cs with
      | nil => exact absurd h (splitNl_ne_nil cs)
      | cons l ls => simp [h]

/-- The lines of a print stream: every printed chunk contributes its own
lines (the trailing print newline closes the chunk's last line), and the
stream ends in one final empty line after the last newline. -/
theorem splitNl_printStream (L : List String) :
    splitNl (printStream L).data = L.flatMap (fun s => splitNl s.data) ++ [[]] := by
  induction L with
  | nil => simp [printStream, splitNl, data_empty_str]
  | cons s rest ih =>
    have hdata : (s ++ "\n" ++ printStream rest).data
        = s.data ++ '\n' :: (printStream rest).data := by
      simp [String.data_append, data_newline_str]
    simp only [printStream, hdata, splitNl_append_newline, ih, List.flatMap_cons,
               List.append_assoc]

theorem invalidDateQuery_schema_inj (t c : String) {s₁ s₂ : String}
    (h : invalidDateQuery s₁ t c = invalidDateQuery s₂ t c) : s₁ = s₂ := by
  have hd := congrArg String.data h
  simp only [invalidDateQuery, String.data_append, List.append_assoc] at hd
  repeat replace hd := List.append_cancel_left hd
  have hlen := congrArg List.length hd
  simp only [List.length_append] at hlen
  exact String.ext ((List.append_inj hd (by omega)).1)

theorem dateDistQuery_schema_inj (t c : String) {s₁ s₂ : String}
    (h : dateDistQuery s₁ t c = dateDistQuery s₂ t c) : s₁ = s₂ := by
  have hd := congrArg String.data h
  simp only [dateDistQuery, String.data_append, List.append_assoc] at hd
  repeat replace hd := List.append_cancel_left hd
  have hlen := congrArg List.length hd
  simp only [List.length_append] at hlen
  exact String.ext ((List.append_inj hd (by omega)).1)

theorem numericPrecisionQuery_schema_inj (t : String) {s₁ s₂ : String}
    (h : numericPrecisionQuery s₁ t = numericPrecisionQuery s₂ t) : s₁ = s₂ := by
  have hd := congrArg String.data h
  simp only [numericPrecisionQuery, String.data_append, List.append_assoc] at hd
  repeat replace hd := List.append_cancel_left hd
  have hlen := congrArg List.length hd
  simp only [List.length_append] at hlen
  exact String.ext ((List.append_inj hd (by omega)).1)

theorem extremeValueQuery_schema_inj (t c : String) {s₁ s₂ : String}
    (h : extremeValueQuery s₁ t c = extremeValueQuery s₂ t c) : s₁ = s₂ := by
  have hd := congrArg String.data h
  simp only [extremeValueQuery, String.data_append, List.append_assoc] at hd
  repeat replace hd := List.append_cancel_left hd
  have hlen := congrArg List.length hd
  simp only [List.length_append] at hlen
  exact String.ext ((List.append_inj hd (by omega)).1)

/-- The date distribution section reads nothing of a table's entry beyond
its name and its `date_filter_col`: two configurations agreeing on those
produce identical date distribution sections. -/
theorem dateDistSection_frame (schema : String) :
    ∀ (tables tables' : List (String × TableConfig)),
      tables.map (fun tc => (tc.1, tc.2.date_filter_col))
        = tables'.map (fun tc => (tc.1, tc.2.date_filter_col)) →
      dateDistSection tables schema = dateDistSection tables' schema := by
  intro tables tables' hmap
  simp only [dateDistSection]
  congr 1
  induction tables generalizing tables' with
  | nil =>
    cases tables' with
    | nil => rfl
    | cons b bs => simp at hmap
  | cons a as ih =>
    cases tables' with
    | nil => simp at hmap
    | cons b bs =>
      simp only [List.map_cons, List.cons.injEq, Prod.mk.injEq] at hmap
      obtain ⟨⟨h1, h2⟩, hrest⟩ := hmap
      simp only [List.map_cons, List.cons.injEq]
      exact ⟨by rw [h1, h2], ih bs hrest⟩

/-- C2: for the singleton configuration mapping `T1` with filter column
`D`, date columns `[D]`, numeric columns `[N]`, and schema `S`, the
emitted invalid date query block holds the literal substring `FROM S.T1`,
and the column name `D` occurs both in the SELECT clause and in the WHERE
clause of that query. -/
theorem claim2_template_example :
    invalidDateQuery "S" "T1" "D" ∈ scriptPrints c2Tables "S"
    ∧ strContains (invalidDateQuery "S" "T1" "D") "FROM S.T1" = true
    ∧ strContains (selectClause (invalidDateQuery "S" "T1" "D")) "D" = true
    ∧ strContains (whereClause (invalidDateQuery "S" "T1" "D")) "D" = true := by
  decide

/-- C4: the program's output is fully deterministic: two invocations, in
arbitrary worlds (argv, environment, clock), produce byte-identical
standard output text, since the script reads nothing of its world. -/
theorem claim4_determinism (w₁ w₂ : World) : programOutput w₁ = programOutput w₂ := rfl

/-- C5: the eight emission steps (header banner, invalid date checks,
date distribution checks, numeric precision metadata, extreme numeric
values, fixed sample row block, fixed row count query, fixed remediation
query) appear in the output in exactly that order, for every
configuration mapping, including the empty one. -/
theorem claim5_emission_order (tables : List (String × TableConfig)) (schema : String) :
    scriptPrints tables schema =
      headerSection ++ invalidDateSection tables schema ++ dateDistSection tables schema
        ++ numericPrecisionSection tables schema ++ extremeValuesSection tables schema
        ++ sampleRowsSection ++ quickCountsSection ++ copyjobSection ++ footerSection :=
  scriptPrints_decomp tables schema

/-- C6: the sample row block, the row count query and the remediation
query are literal fixed chunks (closed constants of the embedding, not
functions of the configuration) and every run, whatever the configuration
mapping holds, ends with exactly these three sections followed by the
closing banner. -/
theorem claim6_fixed_blocks (tables : List (String × TableConfig)) (schema : String) :
    ∃ pre : List String,
      scriptPrints tables schema =
        pre ++ (sampleRowsSection ++ quickCountsSection ++ copyjobSection ++ footerSection)
      ∧ sampleRowsBlock ∈ sampleRowsSection
      ∧ quickCountsBlock ∈ quickCountsSection
      ∧ copyjobBlock ∈ copyjobSection := by
  refine ⟨variableSections tables schema, ?_, by simp [sampleRowsSection],
          by simp [quickCountsSection], by simp [copyjobSection]⟩
  rw [scriptPrints_decomp]
  simp [variableSections, List.append_assoc]

/-- C9: every configured table's `date_filter_col` is a member of its own
`date_columns` list, so every filter column is itself covered by an
invalid date check query in the printed output. -/
theorem claim9_filter_col_checked :
    ∀ tc ∈ TABLES_TO_CHECK,
      tc.2.date_filter_col ∈ tc.2.date_columns
      ∧ invalidDateQuery SCHEMA tc.1 tc.2.date_filter_col ∈ scriptPrints TABLES_TO_CHECK SCHEMA := by
  simp only [scriptPrints_eval]
  decide

/-- Witness for C9 at the `WH_LOANS` entry of the configuration. -/
theorem claim9_witness :
    ("RUNDATE" : String) ∈ ["RUNDATE", "ORIGDATE", "DATEMAT", "PAIDOFFDATE", "DATELASTMAINT", "ADDDATE", "STOPDATE"]
    ∧ invalidDateQuery SCHEMA "WH_LOANS" "RUNDATE" ∈ scriptPrints TABLES_TO_CHECK SCHEMA :=
  claim9_filter_col_checked
    ("WH_LOANS",
     { date_filter_col := "RUNDATE",
       date_columns := ["RUNDATE", "ORIGDATE", "DATEMAT", "PAIDOFFDATE", "DATELASTMAINT", "ADDDATE", "STOPDATE"],
       numeric_columns := ["ORIGBAL", "NOTEBAL", "BOOKBALANCE", "AVAILBALAMT", "COBAL", "PCTPARTSOLD", "LCRATE", "OLDPI", "PF"] })
    (by decide)

/-- C1: filtering the print sequence of the static run for configured
invalid date queries returns exactly the in-order concatenation, over the
configuration, of one query per `date_columns` entry, and likewise for
extreme value queries over `numeric_columns`: each such query is printed
exactly once, in list order, and nowhere else in the output. -/
theorem claim1_coverage_completeness :
    (scriptPrints TABLES_TO_CHECK SCHEMA).filter (isConfInvalidDateQuery TABLES_TO_CHECK SCHEMA)
      = TABLES_TO_CHECK.flatMap (fun tc => tc.2.date_columns.map (invalidDateQuery SCHEMA tc.1))
    ∧ (scriptPrints TABLES_TO_CHECK SCHEMA).filter (isConfExtremeQuery TABLES_TO_CHECK SCHEMA)
      = TABLES_TO_CHECK.flatMap (fun tc => tc.2.numeric_columns.map (extremeValueQuery SCHEMA tc.1)) := by
  rw [scriptPrints_eval]
  decide

/-- C3: every emitted invalid date query of the static run is a single
SELECT statement (one SELECT, one semicolon), qualified by schema and
table name, counting rows and reporting MIN and MAX of the checked
column, and its WHERE clause is exactly the disjunction selecting values
below the literal date 0001-01-01, above the literal date 9999-12-31, or
with extracted year outside the range 1 to 9999. -/
theorem claim3_invalid_date_query_shape :
    ∀ tc ∈ TABLES_TO_CHECK, ∀ col ∈ tc.2.date_columns,
      countOccs "SELECT".data (invalidDateQuery SCHEMA tc.1 col).data = 1
      ∧ countOccs ";".data (invalidDateQuery SCHEMA tc.1 col).data = 1
      ∧ strContains (invalidDateQuery SCHEMA tc.1 col) ("FROM " ++ SCHEMA ++ "." ++ tc.1) = true
      ∧ strContains (invalidDateQuery SCHEMA tc.1 col) "COUNT(*) as invalid_count" = true
      ∧ strContains (invalidDateQuery SCHEMA tc.1 col) ("MIN(" ++ col ++ ") as min_date") = true
      ∧ strContains (invalidDateQuery SCHEMA tc.1 col) ("MAX(" ++ col ++ ") as max_date") = true
      ∧ whereClause (invalidDateQuery SCHEMA tc.1 col) =
          "\nWHERE " ++ col ++ " < TO_DATE('0001-01-01', 'YYYY-MM-DD')\n"
            ++ "   OR " ++ col ++ " > TO_DATE('9999-12-31', 'YYYY-MM-DD')\n"
            ++ "   OR EXTRACT(YEAR FROM " ++ col ++ ") < 1\n"
            ++ "   OR EXTRACT(YEAR FROM " ++ col ++ ") > 9999;\n" := by
  decide

/-- Witness for C3 at table `WH_LOANS` and its date column `RUNDATE`. -/
theorem claim3_witness :
    countOccs "SELECT".data (invalidDateQuery SCHEMA "WH_LOANS" "RUNDATE").data = 1
    ∧ countOccs ";".data (invalidDateQuery SCHEMA "WH_LOANS" "RUNDATE").data = 1
    ∧ strContains (invalidDateQuery SCHEMA "WH_LOANS" "RUNDATE") ("FROM " ++ SCHEMA ++ "." ++ "WH_LOANS") = true
    ∧ strContains (invalidDateQuery SCHEMA "WH_LOANS" "RUNDATE") "COUNT(*) as invalid_count" = true
    ∧ strContains (invalidDateQuery SCHEMA "WH_LOANS" "RUNDATE") ("MIN(" ++ "RUNDATE" ++ ") as min_date") = true
    ∧ strContains (invalidDateQuery SCHEMA "WH_LOANS" "RUNDATE") ("MAX(" ++ "RUNDATE" ++ ") as max_date") = true
    ∧ whereClause (invalidDateQuery SCHEMA "WH_LOANS" "RUNDATE") =
        "\nWHERE " ++ "RUNDATE" ++ " < TO_DATE('0001-01-01', 'YYYY-MM-DD')\n"
          ++ "   OR " ++ "RUNDATE" ++ " > TO_DATE('9999-12-31', 'YYYY-MM-DD')\n"
          ++ "   OR EXTRACT(YEAR FROM " ++ "RUNDATE" ++ ") < 1\n"
          ++ "   OR EXTRACT(YEAR FROM " ++ "RUNDATE" ++ ") > 9999;\n" :=
  claim3_invalid_date_query_shape
    ("WH_LOANS",
     { date_filter_col := "RUNDATE",
       date_columns := ["RUNDATE", "ORIGDATE", "DATEMAT", "PAIDOFFDATE", "DATELASTMAINT", "ADDDATE", "STOPDATE"],
       numeric_columns := ["ORIGBAL", "NOTEBAL", "BOOKBALANCE", "AVAILBALAMT", "COBAL", "PCTPARTSOLD", "LCRATE", "OLDPI", "PF"] })
    (by decide) "RUNDATE" (by decide)

/-- Spec-side content check for one date distribution chunk over filter
column `f`: exactly two SELECT statements and two semicolons; an
aggregate summary reporting min, max, total row count, non-null count and
a null count derived as total minus non-null; a grouped count restricted
to the trailing 7 days of the current date ordered by `f` descending; and
no mention of any other configured column of the table. -/
def dateDistChunkOk (q f : String) (others : List String) : Bool :=
  (countOccs "SELECT".data q.data == 2)
  && (countOccs ";".data q.data == 2)
  && strContains q ("MIN(" ++ f ++ ") as min_date")
  && strContains q ("MAX(" ++ f ++ ") as max_date")
  && strContains q "COUNT(*) as total_rows"
  && strContains q ("COUNT(" ++ f ++ ") as non_null_dates")
  && strContains q ("COUNT(*) - COUNT(" ++ f ++ ") as null_dates")
  && strContains q ("WHERE " ++ f ++ " >= TRUNC(SYSDATE) - 7")
  && strContains q ("GROUP BY " ++ f)
  && strContains q ("ORDER BY " ++ f ++ " DESC")
  && (others.filter (fun c => !(c == f))).all (fun c => !(strContains q c))

/-- C7: for every configured table the date distribution step prints its
chunk (present in the output), the chunk holds exactly two queries of the
required shapes over the table's `date_filter_col` and mentions no other
configured column of that table; moreover the whole section reads nothing
of the configuration beyond table names and filter columns. -/
theorem claim7_date_distribution :
    (∀ tc ∈ TABLES_TO_CHECK,
       dateDistQuery SCHEMA tc.1 tc.2.date_filter_col ∈ scriptPrints TABLES_TO_CHECK SCHEMA
       ∧ dateDistChunkOk (dateDistQuery SCHEMA tc.1 tc.2.date_filter_col)
           tc.2.date_filter_col (tc.2.date_columns ++ tc.2.numeric_columns) = true)
    ∧ (∀ (schema : String) (tables tables' : List (String × TableConfig)),
        tables.map (fun tc => (tc.1, tc.2.date_filter_col))
          = tables'.map (fun tc => (tc.1, tc.2.date_filter_col)) →
        dateDistSection tables schema = dateDistSection tables' schema) := by
  refine ⟨?_, fun schema => dateDistSection_frame schema⟩
  simp only [scriptPrints_eval]
  decide

/-- Witness for C7 at the `WH_ACCTCOMMON` entry, and for the frame part
at two one-table configurations differing only in their column lists. -/
theorem claim7_witness :
    dateDistQuery SCHEMA "WH_ACCTCOMMON" "EFFDATE" ∈ scriptPrints TABLES_TO_CHECK SCHEMA
    ∧ dateDistChunkOk (dateDistQuery SCHEMA "WH_ACCTCOMMON" "EFFDATE") "EFFDATE"
        (["EFFDATE", "CONTRACTDATE", "DATEMAT", "CLOSEDATE", "DATELASTMAINT"]
          ++ ["BOOKBALANCE", "AVAILBAL", "YTDINTPD", "YTDINTACC", "INTRATE"]) = true
    ∧ dateDistSection [("T", { date_filter_col := "F", date_columns := ["F", "A"], numeric_columns := ["N"] })] "S"
        = dateDistSection [("T", { date_filter_col := "F", date_columns := ["F"], numeric_columns := [] })] "S" :=
  ⟨(claim7_date_distribution.1
      ("WH_ACCTCOMMON",
       { date_filter_col := "EFFDATE",
         date_columns := ["EFFDATE", "CONTRACTDATE", "DATEMAT", "CLOSEDATE", "DATELASTMAINT"],
         numeric_columns := ["BOOKBALANCE", "AVAILBAL", "YTDINTPD", "YTDINTACC", "INTRATE"] })
      (by decide)).1,
   (claim7_date_distribution.1
      ("WH_ACCTCOMMON",
       { date_filter_col := "EFFDATE",
         date_columns := ["EFFDATE", "CONTRACTDATE", "DATEMAT", "CLOSEDATE", "DATELASTMAINT"],
         numeric_columns := ["BOOKBALANCE", "AVAILBAL", "YTDINTPD", "YTDINTACC", "INTRATE"] })
      (by decide)).2,
   claim7_date_distribution.2 "S"
     [("T", { date_filter_col := "F", date_columns := ["F", "A"], numeric_columns := ["N"] })]
     [("T", { date_filter_col := "F", date_columns := ["F"], numeric_columns := [] })]
     (by decide)⟩

/-- C8: the output text, split at newlines, passes the layout grammar:
section banner rules and their title lines, blank lines and SQL comment
lines interleaved with SELECT statements, where every statement is closed
by a semicolon before any further banner rule, and no statement is left
open at the end of the output. -/
theorem claim8_output_grammar :
    checkLayout false (splitNl (scriptOutput TABLES_TO_CHECK SCHEMA).data) = true := by
  have h : scriptOutput TABLES_TO_CHECK SCHEMA = printStream (scriptPrints TABLES_TO_CHECK SCHEMA) := rfl
  rw [h, splitNl_printStream, scriptPrints_eval]
  decide

/-- C10: the fixed sample row, row count and remediation chunks hard-code
the schema literal COCCDM and do not interpolate the schema parameter:
every run ends with the same closed fixed tail whatever the schema and
configuration, while each of the four parameterized query templates of
the earlier steps yields different text as soon as the schema differs. -/
theorem claim10_schema_dependence :
    (∀ (tables : List (String × TableConfig)) (schema : String),
       scriptPrints tables schema =
         variableSections tables schema
           ++ (sampleRowsSection ++ quickCountsSection ++ copyjobSection ++ footerSection))
    ∧ strContains sampleRowsBlock "COCCDM" = true
    ∧ strContains quickCountsBlock "COCCDM" = true
    ∧ strContains copyjobBlock "COCCDM" = true
    ∧ (∀ t c s₁ s₂, s₁ ≠ s₂ → invalidDateQuery s₁ t c ≠ invalidDateQuery s₂ t c)
    ∧ (∀ t c s₁ s₂, s₁ ≠ s₂ → dateDistQuery s₁ t c ≠ dateDistQuery s₂ t c)
    ∧ (∀ t s₁ s₂, s₁ ≠ s₂ → numericPrecisionQuery s₁ t ≠ numericPrecisionQuery s₂ t)
    ∧ (∀ t c s₁ s₂, s₁ ≠ s₂ → extremeValueQuery s₁ t c ≠ extremeValueQuery s₂ t c) := by
  refine ⟨?_, by decide, by decide, by decide, ?_, ?_, ?_, ?_⟩
  · intro tables schema
    rw [scriptPrints_decomp]
    simp [variableSections, List.append_assoc]
  · exact fun t c s₁ s₂ hne h => hne (invalidDateQuery_schema_inj t c h)
  · exact fun t c s₁ s₂ hne h => hne (dateDistQuery_schema_inj t c h)
  · exact fun t s₁ s₂ hne h => hne (numericPrecisionQuery_schema_inj t h)
  · exact fun t c s₁ s₂ hne h => hne (extremeValueQuery_schema_inj t c h)

/-- Witness for C10: the decomposition at the empty configuration and
schema `X`, and the four schema-sensitivity parts at schemas `S1`, `S2`. -/
theorem claim10_witness :
    scriptPrints [] "X" =
      variableSections [] "X"
        ++ (sampleRowsSection ++ quickCountsSection ++ copyjobSection ++ footerSection)
    ∧ invalidDateQuery "S1" "T" "C" ≠ invalidDateQuery "S2" "T" "C"
    ∧ dateDistQuery "S1" "T" "C" ≠ dateDistQuery "S2" "T" "C"
    ∧ numericPrecisionQuery "S1" "T" ≠ numericPrecisionQuery "S2" "T"
    ∧ extremeValueQuery "S1" "T" "C" ≠ extremeValueQuery "S2" "T" "C" :=
  ⟨claim10_schema_dependence.1 [] "X",
   claim10_schema_dependence.2.2.2.2.1 "T" "C" "S1" "S2" (by decide),
   claim10_schema_dependence.2.2.2.2.2.1 "T" "C" "S1" "S2" (by decide),
   claim10_schema_dependence.2.2.2.2.2.2.1 "T" "S1" "S2" (by decide),
   claim10_schema_dependence.2.2.2.2.2.2.2 "T" "C" "S1" "S2" (by decide)⟩
